import Mathlib

/-!
Verification of the space-emissions repository against its natural-language
specification.  The Python sources under `eocalc/` are shallowly embedded:
floating point coordinates become exact rationals, pandas series become
lists (with `Option` marking NaN/missing entries), and Python exceptions
become `Except` errors.
-/

namespace SpaceEmissions

/-- Python float modulo for a positive divisor: `b % s = b - s * ⌊b / s⌋`
(the result carries the sign of the divisor, here in `[0, s)`). -/
def fmod (b s : ℚ) : ℚ := b - s * ⌊b / s⌋

/-- Python `int(...)` conversion: truncation toward zero. -/
def pyint (q : ℚ) : ℤ := if 0 ≤ q then ⌊q⌋ else ⌈q⌉

/-- Shapely `region.bounds`: `(minx, miny, maxx, maxy)` of the bounding box. -/
structure Bounds where
  minLong : ℚ
  minLat : ℚ
  maxLong : ℚ
  maxLat : ℚ
deriving DecidableEq

/-- Snapped lower bound used by both `_create_grid` implementations
(`base.py` line 306/308, `temis.py` line 141/143): `v - v % s`. -/
def snapMin (v s : ℚ) : ℚ := v - fmod v s

/-- Snapped upper bound of `EOEmissionCalculator._create_grid`
(`base.py` lines 307/309): `v + v % s`. -/
def snapMaxBase (v s : ℚ) : ℚ := v + fmod v s

/-- Snapped upper bound of `TropomiMonthlyMeanAggregator._create_grid`
(`temis.py` lines 142/144): `v + s - v % s`. -/
def snapMaxTemis (v s : ℚ) : ℚ := v + s - fmod v s

/-- One grid cell feature: optional center property (the code stores the
string "lat/long", modelled as the pair) and the polygon ring of the cell. -/
structure GridCell where
  center : Option (ℚ × ℚ)
  ring : List (ℚ × ℚ)
deriving DecidableEq

/-- Cell feature appended by both `_create_grid` implementations for the cell
with lower-left corner `(long, lat)`. -/
def makeCell (long lat w h : ℚ) (includeCenter : Bool) : GridCell :=
  { center := if includeCenter then some (lat + h / 2, long + w / 2) else none
    ring := [(long, lat), (long + w, lat), (long + w, lat + h),
             (long, lat + h), (long, lat)] }

/-- `EOEmissionCalculator._create_grid` (`base.py` lines 304-324): row-major
cell list, `math.ceil(extent / cellsize)` cells per axis, latitude outer loop. -/
def create_grid_base (region : Bounds) (width height : ℚ) (snap includeCenter : Bool) :
    List GridCell :=
  let min_lat := if snap then snapMin region.minLat height else region.minLat
  let max_lat := if snap then snapMaxBase region.maxLat height else region.maxLat
  let min_long := if snap then snapMin region.minLong width else region.minLong
  let max_long := if snap then snapMaxBase region.maxLong width else region.maxLong
  (List.range (⌈(max_lat - min_lat) / height⌉).toNat).flatMap fun y =>
    (List.range (⌈(max_long - min_long) / width⌉).toNat).map fun (x : ℕ) =>
      makeCell (min_long + (x : ℚ) * width) (min_lat + (y : ℚ) * height) width height includeCenter

/-- `TropomiMonthlyMeanAggregator._create_grid` (`temis.py` lines 139-158):
same shape, but `int(extent / cellsize) + 1` cells per axis and the snapped
upper bound is `v + s - v % s`. -/
def create_grid_temis (region : Bounds) (width height : ℚ) (snap includeCenter : Bool) :
    List GridCell :=
  let min_lat := if snap then snapMin region.minLat height else region.minLat
  let max_lat := if snap then snapMaxTemis region.maxLat height else region.maxLat
  let min_long := if snap then snapMin region.minLong width else region.minLong
  let max_long := if snap then snapMaxTemis region.maxLong width else region.maxLong
  (List.range (pyint ((max_lat - min_lat) / height) + 1).toNat).flatMap fun y =>
    (List.range (pyint ((max_long - min_long) / width) + 1).toNat).map fun (x : ℕ) =>
      makeCell (min_long + (x : ℚ) * width) (min_lat + (y : ℚ) * height) width height includeCenter

/-- Length of the doubly nested cell enumeration: rows times columns. -/
theorem length_bind_range_map {α : Type} (rows cols : ℕ) (f : ℕ → ℕ → α) :
    ((List.range rows).flatMap fun y => (List.range cols).map (f y)).length = rows * cols := by
  induction rows with
  | zero => simp
  | succ r ih =>
      rw [List.range_succ, List.flatMap_append]
      simp [ih, Nat.succ_mul]

/-- The Python modulo equals the cell size times the fractional part of the
quotient. -/
theorem fmod_eq_mul_fract (v s : ℚ) (hs : s ≠ 0) :
    fmod v s = s * Int.fract (v / s) := by
  unfold fmod Int.fract
  field_simp

theorem fmod_nonneg (v s : ℚ) (hs : 0 < s) : 0 ≤ fmod v s := by
  rw [fmod_eq_mul_fract v s hs.ne.symm]
  exact mul_nonneg hs.le (Int.fract_nonneg _)

theorem fmod_lt (v s : ℚ) (hs : 0 < s) : fmod v s < s := by
  rw [fmod_eq_mul_fract v s hs.ne.symm]
  calc s * Int.fract (v / s) < s * 1 :=
        (mul_lt_mul_left hs).mpr (Int.fract_lt_one _)
    _ = s := mul_one s

/-- Claim C1 (amended): with `snap = false`, the base implementation returns
exactly `ceil(extentX/w) * ceil(extentY/h)` cells, while the temis
implementation returns `(int(extentY/h) + 1) * (int(extentX/w) + 1)` cells,
which exceeds the ceiling count whenever an extent is an exact multiple of
the cell size. -/
theorem grid_cell_count_amended :
    (∀ (b : Bounds) (w h : ℚ) (ic : Bool), 0 < w → 0 < h →
      (create_grid_base b w h false ic).length =
        (⌈(b.maxLat - b.minLat) / h⌉).toNat * (⌈(b.maxLong - b.minLong) / w⌉).toNat) ∧
    (∀ (b : Bounds) (w h : ℚ) (ic : Bool), 0 < w → 0 < h →
      (create_grid_temis b w h false ic).length =
        (pyint ((b.maxLat - b.minLat) / h) + 1).toNat *
          (pyint ((b.maxLong - b.minLong) / w) + 1).toNat) := by
  constructor
  · intro b w h ic _ _
    unfold create_grid_base
    simp only [Bool.false_eq_true, if_false]
    exact length_bind_range_map _ _ _
  · intro b w h ic _ _
    unfold create_grid_temis
    simp only [Bool.false_eq_true, if_false]
    exact length_bind_range_map _ _ _

/-- Claim C1 witness: both counts evaluated on the unit square with cell
size 0.3 (a non-multiple), where the two implementations agree on 16 cells. -/
theorem grid_cell_count_amended_witness :
    (create_grid_base ⟨0, 0, 1, 1⟩ (3/10) (3/10) false false).length =
        (⌈((1:ℚ) - 0) / (3/10)⌉).toNat * (⌈((1:ℚ) - 0) / (3/10)⌉).toNat ∧
    (create_grid_temis ⟨0, 0, 1, 1⟩ (3/10) (3/10) false false).length =
        (pyint (((1:ℚ) - 0) / (3/10)) + 1).toNat * (pyint (((1:ℚ) - 0) / (3/10)) + 1).toNat :=
  ⟨grid_cell_count_amended.1 ⟨0, 0, 1, 1⟩ (3/10) (3/10) false (by norm_num) (by norm_num),
   grid_cell_count_amended.2 ⟨0, 0, 1, 1⟩ (3/10) (3/10) false (by norm_num) (by norm_num)⟩

/-- Claim C1 counterexample: on the unit square with cell size 0.5 and
`snap = false` the temis implementation produces 9 cells, not the
`ceil(2) * ceil(2) = 4` cells the claim asserts for both implementations. -/
theorem grid_cell_count_counterexample :
    (create_grid_temis ⟨0, 0, 1, 1⟩ (1/2) (1/2) false false).length ≠
      (⌈((1:ℚ) - 0) / (1/2)⌉).toNat * (⌈((1:ℚ) - 0) / (1/2)⌉).toNat := by
  have h1 : (create_grid_temis ⟨0, 0, 1, 1⟩ (1/2) (1/2) false false).length = 9 := by
    unfold create_grid_temis
    simp only [Bool.false_eq_true, if_false]
    rw [length_bind_range_map]
    norm_num [pyint]
    decide
  have h2 : (⌈((1:ℚ) - 0) / (1/2)⌉) = 2 := by
    norm_num
  rw [h1, h2]
  decide

/-- Claim C7 (amended): for positive cell size, both implementations snap the
lower bound down to the greatest multiple of the cell size at or below it;
the temis implementation raises the upper bound to `s * (⌊v/s⌋ + 1)`, the
least grid line strictly above the bound, while the base implementation uses
`v + v % s`, which stays within one cell size above the bound but in general
lies on no grid line. -/
theorem snap_corner_amended (v s : ℚ) (hs : 0 < s) :
    (snapMin v s = s * ⌊v / s⌋ ∧ snapMin v s ≤ v ∧ v < snapMin v s + s) ∧
    (snapMaxTemis v s = s * (⌊v / s⌋ + 1) ∧ v < snapMaxTemis v s ∧ snapMaxTemis v s ≤ v + s) ∧
    (v ≤ snapMaxBase v s ∧ snapMaxBase v s < v + s) := by
  have h0 := fmod_nonneg v s hs
  have h1 := fmod_lt v s hs
  refine ⟨⟨?_, ?_, ?_⟩, ⟨?_, ?_, ?_⟩, ?_, ?_⟩
  · unfold snapMin fmod; ring
  · unfold snapMin; linarith
  · unfold snapMin; linarith
  · unfold snapMaxTemis fmod; ring
  · unfold snapMaxTemis; linarith
  · unfold snapMaxTemis; linarith
  · unfold snapMaxBase; linarith
  · unfold snapMaxBase; linarith

/-- Claim C7 witness: instantiation at bound 0.3 and cell size 0.25, where
the snapped lower bound is 0.25. -/
theorem snap_corner_amended_witness :
    (snapMin (3/10) (1/4) = (1/4) * ⌊(3/10 : ℚ) / (1/4)⌋ ∧
      snapMin (3/10) (1/4) ≤ 3/10 ∧ (3/10 : ℚ) < snapMin (3/10) (1/4) + 1/4) ∧
    (snapMaxTemis (3/10) (1/4) = (1/4) * (⌊(3/10 : ℚ) / (1/4)⌋ + 1) ∧
      (3/10 : ℚ) < snapMaxTemis (3/10) (1/4) ∧ snapMaxTemis (3/10) (1/4) ≤ 3/10 + 1/4) ∧
    ((3/10 : ℚ) ≤ snapMaxBase (3/10) (1/4) ∧ snapMaxBase (3/10) (1/4) < 3/10 + 1/4) :=
  snap_corner_amended (3/10) (1/4) (by norm_num)

/-- Claim C7 counterexample: with bounding-box upper bound 0.3 and cell size
0.25 the base implementation computes the snapped upper bound 0.35, which is
not the nearest multiple of 0.25 at or above 0.3 (that would be 0.5). -/
theorem snap_corner_counterexample :
    snapMaxBase (3/10) (1/4) ≠ (1/4) * ⌈(3/10 : ℚ) / (1/4)⌉ := by
  have hc : ⌈(3/10 : ℚ) / (1/4)⌉ = 2 := by
    rw [Int.ceil_eq_iff]
    norm_num
  rw [hc]
  norm_num [snapMaxBase, fmod]

/-- Claim C8: the base implementation violates its own docstring (`base.py`
line 302, "Will contain at least one row."): a region with a degenerate
(point-like) bounding box yields an empty grid in both snap modes, while the
temis implementation always yields at least one cell. -/
theorem degenerate_extent_empty_grid :
    create_grid_base ⟨0, 0, 0, 0⟩ 1 1 false false = [] ∧
    create_grid_base ⟨0, 0, 0, 0⟩ 1 1 true false = [] ∧
    (create_grid_temis ⟨0, 0, 0, 0⟩ 1 1 false false).length = 1 := by
  refine ⟨?_, ?_, ?_⟩
  · unfold create_grid_base
    norm_num
  · unfold create_grid_base
    norm_num [snapMin, snapMaxBase, fmod]
  · unfold create_grid_temis
    simp only [Bool.false_eq_true, if_false]
    rw [length_bind_range_map]
    norm_num [pyint]

/-- `EOEmissionCalculator._combine_uncertainties` (`base.py` lines 242-272).
Pandas series become lists of `Option ℚ` (`none` is NaN).  The final Python
expression is `sqrt(sum((v*u)**2)) / sum(v)`; to stay in exact arithmetic the
embedding returns the pair `(radicand, divisor)` whose meaning is
`Real.sqrt radicand / divisor`, and the zero-sum branch returns `(0, 1)`,
which denotes the literal `0` the source returns there.  Pandas semantics
kept: `values.sum()` skips NaN, and `multiply(..., fill_value=0)` treats a
missing value as 0 (uncertainties are NaN-free past the validation). -/
def _combine_uncertainties (values uncertainties : List (Option ℚ)) :
    Except String (ℚ × ℚ) :=
  if values.length = 0 ∨ uncertainties.length = 0 then
    .error "Neither values nor uncertainties may be empty."
  else if values.length ≠ uncertainties.length then
    .error "List of values need to have the same length as the list of uncertainties."
  else if uncertainties.any fun u => (match u with
      | none => true
      | some x => decide (x < 0)) then
    .error "All uncertainties need to be positive real numbers."
  else if (values.map fun v => v.getD 0).sum = 0 then
    .ok (0, 1)
  else
    .ok (((values.zip uncertainties).map fun p => (p.1.getD 0 * p.2.getD 0) ^ 2).sum,
         (values.map fun v => v.getD 0).sum)

/-- Spec-side formula: the radicand `Σ (value_i · u_i)²` of the IPCC 6.3
root-sum-square rule, written from the specification text. -/
def rss_radicand (values uncertainties : List (Option ℚ)) : ℚ :=
  ((values.zip uncertainties).map fun p => (p.1.getD 0 * p.2.getD 0) ^ 2).sum

/-- Spec-side formula: the (NaN-skipping) value sum `Σ value_i`. -/
def values_sum (values : List (Option ℚ)) : ℚ :=
  (values.map fun v => v.getD 0).sum

/-- Claim C2: for equal-length inputs whose uncertainties are all defined and
non-negative and whose value sum is non-zero, the combined uncertainty is
`sqrt(Σ (value_i · u_i)²) / Σ value_i`; in particular the result is 2 on
values `[10]`, uncertainties `[2]`, and `sqrt(20² + 40²) / 20` on values
`[10, 10]`, uncertainties `[2, 4]`. -/
theorem combine_uncertainties_formula :
    (∀ (vs us : List (Option ℚ)),
      vs.length = us.length →
      (∀ u ∈ us, ∃ x, u = some x ∧ 0 ≤ x) →
      values_sum vs ≠ 0 →
      _combine_uncertainties vs us = .ok (rss_radicand vs us, values_sum vs) ∧
        Real.sqrt (rss_radicand vs us : ℝ) / (values_sum vs : ℝ) =
          Real.sqrt ((((vs.zip us).map fun p => (p.1.getD 0 * p.2.getD 0) ^ 2).sum : ℚ)) /
            (((vs.map fun v => v.getD 0).sum : ℚ) : ℝ)) ∧
    (_combine_uncertainties [some 10] [some 2] = .ok (400, 10) ∧
      Real.sqrt 400 / 10 = 2) ∧
    (_combine_uncertainties [some 10, some 10] [some 2, some 4] = .ok (2000, 20) ∧
      Real.sqrt 2000 / 20 = Real.sqrt (20 ^ 2 + 40 ^ 2) / 20) := by
  refine ⟨?_, ⟨?_, ?_⟩, ⟨?_, ?_⟩⟩
  · intro vs us hlen hdef hsum
    have hvs : vs.length ≠ 0 := by
      intro h0
      apply hsum
      rw [values_sum, List.eq_nil_of_length_eq_zero h0]
      rfl
    have hany : (us.any fun u => (match u with
        | none => true
        | some x => decide (x < 0))) = false := by
      rw [List.any_eq_false]
      intro u hu
      obtain ⟨x, hx, hx0⟩ := hdef u hu
      subst hx
      simpa using not_lt.mpr hx0
    constructor
    · unfold _combine_uncertainties
      rw [if_neg, if_neg, if_neg, if_neg]
      · rfl
      · exact hsum
      · simp [hany]
      · omega
      · push_neg
        exact ⟨hvs, by omega⟩
    · rfl
  · have hval : values_sum [some 10] ≠ 0 := by
      unfold values_sum
      norm_num
    unfold _combine_uncertainties
    rw [if_neg (by norm_num), if_neg (by norm_num), if_neg (by norm_num),
        if_neg (by norm_num)]
    norm_num
  · rw [show (400 : ℝ) = 20 ^ 2 by norm_num, Real.sqrt_sq (by norm_num : (0:ℝ) ≤ 20)]
    norm_num
  · unfold _combine_uncertainties
    rw [if_neg (by norm_num), if_neg (by norm_num), if_neg (by norm_num),
        if_neg (by norm_num)]
    norm_num
  · rw [show ((20 : ℝ) ^ 2 + 40 ^ 2) = 2000 by norm_num]

/-- Claim C2 witness: the general formula applied to values `[10, NaN]` and
uncertainties `[2, 3]`; the missing value is excluded pairwise. -/
theorem combine_uncertainties_formula_witness :
    _combine_uncertainties [some 10, none] [some 2, some 3] =
      .ok (rss_radicand [some 10, none] [some 2, some 3], values_sum [some 10, none]) := by
  have h := combine_uncertainties_formula.1 [some 10, none] [some 2, some 3]
    (by norm_num)
    (by
      intro u hu
      simp only [List.mem_cons, List.not_mem_nil, or_false] at hu
      rcases hu with h | h <;> subst h
      · exact ⟨2, rfl, by norm_num⟩
      · exact ⟨3, rfl, by norm_num⟩)
    (by unfold values_sum; norm_num)
  exact h.1

/-- Claim C3: the code raises on empty input (`base.py` line 261), it does
NOT return 0 there, contradicting the claim and the repository's own test
`test_combine_uncertainties` which asserts
`0 == _combine_uncertainties(Series([]), Series([]))`.  The remaining rules
of the claim hold: zero value sum returns 0, a negative or missing
uncertainty raises, mismatched lengths raise. -/
theorem combine_uncertainties_error_cases :
    _combine_uncertainties [] [] =
      .error "Neither values nor uncertainties may be empty." ∧
    _combine_uncertainties [some 1, some (-1)] [some 2, some 3] = .ok (0, 1) ∧
    _combine_uncertainties [some 10] [some (-2)] =
      .error "All uncertainties need to be positive real numbers." ∧
    _combine_uncertainties [some 10] [none] =
      .error "All uncertainties need to be positive real numbers." ∧
    _combine_uncertainties [some 10, some 20] [some 2] =
      .error "List of values need to have the same length as the list of uncertainties." := by
  refine ⟨by rfl, ?_, ?_, by rfl, by rfl⟩
  · unfold _combine_uncertainties
    rw [if_neg (by norm_num), if_neg (by norm_num), if_neg (by norm_num), if_pos (by norm_num)]
  · unfold _combine_uncertainties
    rw [if_neg (by norm_num), if_neg (by norm_num), if_pos (by norm_num)]

/-- `Pollutant` enum (`context.py` lines 7-13). -/
inductive Pollutant where
  | NOx
  | SO2
  | NH3
  | PM2_5
deriving DecidableEq

/-- Python `Enum.name` of a pollutant member. -/
def Pollutant.pname : Pollutant → String
  | .NOx => "NOx"
  | .SO2 => "SO2"
  | .NH3 => "NH3"
  | .PM2_5 => "PM2_5"

/-- `GNFR` enum (`context.py` lines 16-46): all members, in definition order.
Note the enum has 21 members: the 20 lettered sectors A through T plus the
memo item `z_Memo`. -/
inductive GNFR where
  | A_PublicPower
  | B_IndustrialComb
  | C_SmallComb
  | D_IndProcess
  | E_Fugitive
  | F_Solvents
  | G_RoadRail
  | H_Shipping
  | I_OffRoadMob
  | J_AviLTO
  | K_CivilAviCruise
  | L_OtherWasteDisp
  | M_WasteWater
  | N_WasteIncin
  | O_AgriLivestock
  | P_AgriOther
  | Q_AgriWastes
  | R_Other
  | S_Natural
  | T_IntAviCruise
  | z_Memo
deriving DecidableEq

/-- Iteration order of the `GNFR` enum class, as Python `DataFrame(index=GNFR)`
uses it. -/
def GNFR.all : List GNFR :=
  [.A_PublicPower, .B_IndustrialComb, .C_SmallComb, .D_IndProcess, .E_Fugitive,
   .F_Solvents, .G_RoadRail, .H_Shipping, .I_OffRoadMob, .J_AviLTO,
   .K_CivilAviCruise, .L_OtherWasteDisp, .M_WasteWater, .N_WasteIncin,
   .O_AgriLivestock, .P_AgriOther, .Q_AgriWastes, .R_Other, .S_Natural,
   .T_IntAviCruise, .z_Memo]

/-- Row index of the GNFR result table: a sector enum member or the appended
string label "Totals". -/
inductive RowLabel where
  | sector (g : GNFR)
  | totals
deriving DecidableEq

/-- One table row: three cells (emission value, Umin [%], Umax [%]), `none`
is `np.nan`. -/
def EmptyRow : Option ℚ × Option ℚ × Option ℚ := (none, none, none)

/-- The GNFR result table: column names plus labelled rows. -/
structure GnfrTable where
  columns : List String
  rows : List (RowLabel × (Option ℚ × Option ℚ × Option ℚ))
deriving DecidableEq

/-- `EOEmissionCalculator._create_gnfr_table` (`base.py` lines 221-240): one
row per `GNFR` member plus an appended "Totals" row, three columns, all data
`np.nan`. -/
def _create_gnfr_table (pollutant : Pollutant) : GnfrTable :=
  { columns := [pollutant.pname ++ " emissions [kt]", "Umin [%]", "Umax [%]"]
    rows := (GNFR.all.map fun g => (RowLabel.sector g, EmptyRow)) ++
            [(RowLabel.totals, EmptyRow)] }

/-- Claim C9 counterexample: for pollutant NOx the table has 22 rows, not the
21 the claim asserts (20 sectors plus Totals): the `GNFR` enum itself has 21
members. -/
theorem gnfr_table_row_count_counterexample :
    (_create_gnfr_table Pollutant.NOx).rows.length ≠ 21 := by
  decide

/-- Claim C9 (amended): for every pollutant the table has one row per each of
the 21 GNFR enum members (the 20 lettered sectors plus `z_Memo`) plus one
synthetic "Totals" row, hence 22 rows, with three columns (emission value,
Umin [%], Umax [%]) and every cell pre-filled n/a.  This matches the
repository's own test, which asserts `len(GNFR) + 1` rows. -/
theorem gnfr_table_shape_amended (p : Pollutant) :
    (_create_gnfr_table p).rows.length = 22 ∧
    (_create_gnfr_table p).rows.length = GNFR.all.length + 1 ∧
    (∀ r ∈ (_create_gnfr_table p).rows, r.2 = EmptyRow) ∧
    (_create_gnfr_table p).columns =
      [p.pname ++ " emissions [kt]", "Umin [%]", "Umax [%]"] ∧
    (_create_gnfr_table p).rows.map Prod.fst =
      GNFR.all.map RowLabel.sector ++ [RowLabel.totals] := by
  refine ⟨by cases p <;> decide, by cases p <;> decide, ?_, by cases p <;> rfl,
    by cases p <;> decide⟩
  intro r hr
  unfold _create_gnfr_table at hr
  simp only [List.mem_append, List.mem_map, List.mem_singleton] at hr
  rcases hr with ⟨g, _, hg⟩ | hr
  · rw [← hg]
  · rw [hr]

/-- Claim C9 witness: the amended shape at pollutant NOx. -/
theorem gnfr_table_shape_amended_witness :
    (_create_gnfr_table Pollutant.NOx).rows.length = 22 ∧
    (∀ r ∈ (_create_gnfr_table Pollutant.NOx).rows, r.2 = EmptyRow) :=
  ⟨(gnfr_table_shape_amended Pollutant.NOx).1,
   (gnfr_table_shape_amended Pollutant.NOx).2.2.1⟩

/-- `binas.py` line 8: nitrogen molar mass `14.00670e-3` kg/mol. -/
def xm_N : ℚ := 1400670 / 100000000

/-- `binas.py` line 11: oxygen molar mass `15.99940e-3` kg/mol. -/
def xm_O : ℚ := 1599940 / 100000000

/-- `binas.py` line 16: `xm_NO2 = xm_N + xm_O * 2`. -/
def xm_NO2 : ℚ := xm_N + xm_O * 2

/-- Outcome of `scipy.sparse.linalg.lsqr` as used in `fioletov.py` line 168:
solution vector, stop reason (`istop = 7` is the iteration-limit code), and
iteration count.  The solver itself is scipy library code, so its outcome is
taken as an input here. -/
structure LsqrOutcome where
  x : List ℚ
  istop : ℕ
  itn : ℕ
deriving DecidableEq

/-- A Python value as returned by the calculators' `run` methods. -/
inductive PyValue where
  | pyInt (n : ℤ)
  | pyTable (t : GnfrTable)
  | pyFrame (cols : List (String × ℚ)) (geometry : Bounds)
  | pyLsqr (x : List ℚ) (istop : ℕ) (itn : ℕ)
  | pyRats (xs : List ℚ)
  | pyDict (entries : List (String × PyValue))

/-- `EOEmissionCalculator.TOTAL_EMISSIONS_KEY` (`base.py` line 57). -/
def TOTAL_EMISSIONS_KEY : String := "totals"

/-- `EOEmissionCalculator.GRIDDED_EMISSIONS_KEY` (`base.py` line 59). -/
def GRIDDED_EMISSIONS_KEY : String := "grid"

/-- Whether a Python value is a dict containing the given key. -/
def PyValue.hasKey : PyValue → String → Bool
  | .pyDict es, k => es.any fun e => e.1 = k
  | _, _ => false

/-- `MultiSourceCalculator.run` after the lsqr call (`fioletov.py` lines
168-223): the solver outcome is used unconditionally — no inspection of
`istop` or `itn`, no divergence check — and the method returns the dict
`tmp_return` with keys "solution", "emissions" and "gpd" (the commented-out
totals/grid return is dead code).  Plot and print side effects are elided. -/
def fioletov_run_after_solve (decay : ℚ) (sol : LsqrOutcome) : Except String PyValue :=
  let source_conversion := decay * 1000000 * xm_NO2 * 365 * 24
  let emissions := sol.x.map fun v => source_conversion * v
  .ok (.pyDict [("solution", .pyLsqr sol.x sol.istop sol.itn),
                ("emissions", .pyRats emissions),
                ("gpd", .pyRats (emissions.map fun e => e * (1 / 1000000)))])

/-- `DummyEOEmissionCalculator.run` (`dummy.py` lines 32-43): after the
progress churn (elided, it is sleep-and-set side effects) it returns the
plain integer 42, not a result mapping. -/
def dummy_run : PyValue := .pyInt 42

/-- Index of a sector in the `GNFR` enum iteration order. -/
def GNFR.idx (g : GNFR) : ℕ := GNFR.all.indexOf g

/-- `RandomEOEmissionCalculator.run` totals table (`fluky.py` lines 51-57):
each sector row is filled with `random()*100`, `random()*18`, `random()*22`
(the random stream is passed in as `rand`, drawn in iteration order), then
the "Totals" row becomes the column sums (pandas `sum` skips NaN). -/
def fluky_table (p : Pollutant) (rand : ℕ → ℚ) : GnfrTable :=
  let data := _create_gnfr_table p
  let data : GnfrTable := { data with rows := data.rows.map fun r =>
      match r.1 with
      | .sector g =>
          (r.1, (some (rand (3 * g.idx) * 100), some (rand (3 * g.idx + 1) * 18),
                 some (rand (3 * g.idx + 2) * 22)))
      | .totals => r }
  let c1 := values_sum (data.rows.map fun r => r.2.1)
  let c2 := values_sum (data.rows.map fun r => r.2.2.1)
  let c3 := values_sum (data.rows.map fun r => r.2.2.2)
  { data with rows := data.rows.map fun r =>
      match r.1 with
      | .totals => (r.1, (some c1, some c2, some c3))
      | _ => r }

/-- Row lookup by label, first match (pandas `.loc`). -/
def GnfrTable.lookup (t : GnfrTable) (l : RowLabel) :
    Option (Option ℚ × Option ℚ × Option ℚ) :=
  (t.rows.find? fun r => r.1 = l).map fun r => r.2

/-- `RandomEOEmissionCalculator.run` (`fluky.py` lines 46-65): returns the
dict with the fixed totals and grid keys; the grid frame carries the totals
row values and the region geometry (`getD 0` extracts a float that is always
present there). -/
def fluky_run (p : Pollutant) (region : Bounds) (rand : ℕ → ℚ) : PyValue :=
  let data := fluky_table p rand
  let totalsRow := (data.lookup RowLabel.totals).getD EmptyRow
  .pyDict [(TOTAL_EMISSIONS_KEY, .pyTable data),
           (GRIDDED_EMISSIONS_KEY, .pyFrame
              [(p.pname ++ " [kt]", totalsRow.1.getD 0),
               ("Umin [%]", totalsRow.2.1.getD 0),
               ("Umax [%]", totalsRow.2.2.getD 0)] region)]

/-- Claim C4 counterexample: an lsqr outcome whose stop reason is the
iteration-limit code 7 still makes `run` return a normal result, so the run
does not fail with any SolverDivergence condition. -/
theorem solver_cap_counterexample :
    (fioletov_run_after_solve (1/3) ⟨[0], 7, 50⟩).isOk = true := by
  rfl

/-- Claim C4 (amended): `MultiSourceCalculator.run` uses the lsqr outcome
unconditionally: for every dampened-solve outcome, including those that hit
the iteration cap, it returns a dict with keys "solution", "emissions" and
"gpd"; no SolverDivergence condition exists in the code and no failure path
follows the solve. -/
theorem fioletov_run_ignores_solver_status (decay : ℚ) (sol : LsqrOutcome) :
    (fioletov_run_after_solve decay sol).isOk = true ∧
    fioletov_run_after_solve decay sol =
      .ok (.pyDict
        [("solution", .pyLsqr sol.x sol.istop sol.itn),
         ("emissions", .pyRats (sol.x.map fun v => decay * 1000000 * xm_NO2 * 365 * 24 * v)),
         ("gpd", .pyRats ((sol.x.map fun v => decay * 1000000 * xm_NO2 * 365 * 24 * v).map
            fun e => e * (1 / 1000000)))]) := by
  exact ⟨rfl, rfl⟩

/-- Claim C6 counterexample: the dummy calculator's `run` returns the plain
integer 42; it is not a mapping and contains no "totals" key. -/
theorem run_contract_counterexample :
    dummy_run = .pyInt 42 ∧ dummy_run.hasKey TOTAL_EMISSIONS_KEY = false := by
  exact ⟨rfl, rfl⟩

/-- Claim C6 (amended): only `RandomEOEmissionCalculator.run` honours the
output contract, returning a dict with the fixed "totals" key (GNFR table)
and "grid" key; `DummyEOEmissionCalculator.run` returns the integer 42 and
`MultiSourceCalculator.run` returns a dict with keys "solution",
"emissions", "gpd" and no "totals" or "grid" key. -/
theorem run_output_contract_amended (p : Pollutant) (region : Bounds) (rand : ℕ → ℚ)
    (decay : ℚ) (sol : LsqrOutcome) :
    (fluky_run p region rand).hasKey TOTAL_EMISSIONS_KEY = true ∧
    (fluky_run p region rand).hasKey GRIDDED_EMISSIONS_KEY = true ∧
    (fluky_run p region rand) =
      .pyDict [(TOTAL_EMISSIONS_KEY, .pyTable (fluky_table p rand)),
               (GRIDDED_EMISSIONS_KEY, .pyFrame
                  [(p.pname ++ " [kt]",
                    (((fluky_table p rand).lookup RowLabel.totals).getD EmptyRow).1.getD 0),
                   ("Umin [%]",
                    (((fluky_table p rand).lookup RowLabel.totals).getD EmptyRow).2.1.getD 0),
                   ("Umax [%]",
                    (((fluky_table p rand).lookup RowLabel.totals).getD EmptyRow).2.2.getD 0)]
                  region)] ∧
    dummy_run = .pyInt 42 ∧
    (fioletov_run_after_solve decay sol).isOk = true ∧
    (∀ v, fioletov_run_after_solve decay sol = .ok v →
      v.hasKey TOTAL_EMISSIONS_KEY = false ∧ v.hasKey GRIDDED_EMISSIONS_KEY = false ∧
      v.hasKey "solution" = true ∧ v.hasKey "emissions" = true ∧ v.hasKey "gpd" = true) := by
  refine ⟨rfl, rfl, rfl, rfl, rfl, ?_⟩
  intro v hv
  have hv2 : v = .pyDict
      [("solution", .pyLsqr sol.x sol.istop sol.itn),
       ("emissions", .pyRats (sol.x.map fun w => decay * 1000000 * xm_NO2 * 365 * 24 * w)),
       ("gpd", .pyRats ((sol.x.map fun w => decay * 1000000 * xm_NO2 * 365 * 24 * w).map
          fun e => e * (1 / 1000000)))] := by
    have : Except.ok (ε := String) v = .ok (.pyDict
        [("solution", .pyLsqr sol.x sol.istop sol.itn),
         ("emissions", .pyRats (sol.x.map fun w => decay * 1000000 * xm_NO2 * 365 * 24 * w)),
         ("gpd", .pyRats ((sol.x.map fun w => decay * 1000000 * xm_NO2 * 365 * 24 * w).map
            fun e => e * (1 / 1000000)))]) := hv.symm.trans rfl
    exact Except.ok.inj this
  subst hv2
  exact ⟨rfl, rfl, rfl, rfl, rfl⟩

/-- Claim C6 witness: the fioletov conjunct discharged at a concrete solver
outcome. -/
theorem run_output_contract_amended_witness :
    (fluky_run Pollutant.NOx ⟨0, 0, 1, 1⟩ (fun _ => 1/2)).hasKey TOTAL_EMISSIONS_KEY = true ∧
    dummy_run = .pyInt 42 :=
  ⟨(run_output_contract_amended Pollutant.NOx ⟨0, 0, 1, 1⟩ (fun _ => 1/2) (1/3)
      ⟨[0], 7, 50⟩).1,
   (run_output_contract_amended Pollutant.NOx ⟨0, 0, 1, 1⟩ (fun _ => 1/2) (1/3)
      ⟨[0], 7, 50⟩).2.2.2.1⟩

/-- One satellite observation row of `df_obs` in `fioletov.py`: latitude,
longitude, and the vertical column density (`vcd`). -/
structure Obs where
  lat : ℚ
  lon : ℚ
  vcd : ℚ
deriving DecidableEq

/-- Gridding parameters of `MultiSourceCalculator.run`: domain lower bounds
and resolutions (`min_lat`, `min_long`, `resolution_lat`, `resolution_lon`). -/
structure BinParams where
  minLat : ℚ
  minLong : ℚ
  resLat : ℚ
  resLong : ℚ

/-- `df_obs['iy']` (`fioletov.py` line 138): `floor((lat - min_lat) / resolution_lat)`. -/
def obs_iy (P : BinParams) (o : Obs) : ℤ := ⌊(o.lat - P.minLat) / P.resLat⌋

/-- `df_obs['ix']` (`fioletov.py` line 140): `floor((lon - min_long) / resolution_lon)`. -/
def obs_ix (P : BinParams) (o : Obs) : ℤ := ⌊(o.lon - P.minLong) / P.resLong⌋

/-- `df_obs['iy_ix']` (`fioletov.py` line 142): the grouping key.  The Python
code formats the pair as the string `"iy_ix"`; the formatting is injective,
so the pair itself is used. -/
def binKey (P : BinParams) (o : Obs) : ℤ × ℤ := (obs_iy P o, obs_ix P o)

/-- The observations of one `groupby('iy_ix')` group, in original order
(pandas groupby preserves intra-group order). -/
def groupObs (P : BinParams) (obs : List Obs) (k : ℤ × ℤ) : List Obs :=
  obs.filter fun o => binKey P o = k

/-- Insertion into a sorted list of rationals. -/
def insertSorted (x : ℚ) : List ℚ → List ℚ
  | [] => [x]
  | y :: ys => if x ≤ y then x :: y :: ys else y :: insertSorted x ys

/-- Ascending insertion sort. -/
def sortAsc (l : List ℚ) : List ℚ := l.foldr insertSorted []

/-- Pandas `Series.quantile(.05)` with the default linear interpolation: on
the ascending sort `s` of `n` values, the virtual position is
`h = 0.05 * (n - 1)` and the result is
`s[⌊h⌋] + (h - ⌊h⌋) * (s[⌊h⌋ + 1] - s[⌊h⌋])` (the last term vanishing when
`⌊h⌋` is the final index).  Meaningful for `n ≥ 1`. -/
def quantile05 (l : List ℚ) : ℚ :=
  let s := sortAsc l
  let pos : ℚ := (1 / 20) * ((s.length : ℚ) - 1)
  let i : ℕ := (⌊pos⌋).toNat
  let lo := s.getD i 0
  let hi := s.getD (i + 1) lo
  lo + (pos - (i : ℚ)) * (hi - lo)

/-- The distinct grouping keys of `groupby('iy_ix')`.  Pandas sorts group
keys; the key order is irrelevant to the bias lookup, so the deduplicated
key list is used. -/
def binKeys (P : BinParams) (obs : List Obs) : List (ℤ × ℤ) :=
  (obs.map (binKey P)).dedup

/-- The `bias_grid` of `fioletov.py` lines 148-151: for every group key the
5th-percentile of the concentrations in that bin.  Modelled as an
association list; the numpy fixed-size array (whose out-of-range indices
would wrap around) is not modelled, the theorems below therefore carry
in-range hypotheses on the bin indices. -/
def bias_grid (P : BinParams) (obs : List Obs) : List ((ℤ × ℤ) × ℚ) :=
  (binKeys P obs).map fun k => (k, quantile05 ((groupObs P obs k).map Obs.vcd))

/-- `bias_per_obs` (`fioletov.py` line 152): grid lookup at the observation's
own bin; `none` models the NaN initialisation of unwritten grid cells. -/
def bias_per_obs (P : BinParams) (obs : List Obs) (o : Obs) : Option ℚ :=
  ((bias_grid P obs).find? fun e => e.1 = binKey P o).map fun e => e.2

/-- `linear_system_B` (`fioletov.py` lines 153-154): per observation, the
concentration minus the bias of its bin (NaN propagating if the bias were
undefined). -/
def linear_system_B (P : BinParams) (obs : List Obs) : List (Option ℚ) :=
  obs.map fun o => (bias_per_obs P obs o).map fun b => o.vcd - b

/-- Finding a key in a keyed map built over a key list returns that key's
entry. -/
theorem find_map_self {β : Type} (f : ℤ × ℤ → β) (l : List (ℤ × ℤ)) (k : ℤ × ℤ)
    (hk : k ∈ l) :
    ((l.map fun k2 => (k2, f k2)).find? fun e => e.1 = k) = some (k, f k) := by
  induction l with
  | nil => cases hk
  | cons a t ih =>
      by_cases hak : a = k
      · subst hak
        simp [List.find?]
      · rcases List.mem_cons.mp hk with h | h
        · exact absurd h.symm hak
        · rw [List.map_cons, List.find?_cons_of_neg _ (by simpa using hak)]
          exact ih h

/-- Claim C5: every observation's bin contains at least the observation
itself, and the bias assigned to the observation is the 5th-percentile of
the concentrations of all observations in its bin, while its right-hand-side
entry is its concentration minus that bias.  The in-range hypotheses mirror
valid numpy indexing of the `(len(lats), len(lons))` bias array. -/
theorem multisource_bias_and_rhs (P : BinParams) (obs : List Obs) (n : ℕ)
    (hn : n < obs.length) (nlat nlon : ℕ)
    (_hy : ∀ o ∈ obs, 0 ≤ obs_iy P o ∧ obs_iy P o < (nlat : ℤ))
    (_hx : ∀ o ∈ obs, 0 ≤ obs_ix P o ∧ obs_ix P o < (nlon : ℤ)) :
    (groupObs P obs (binKey P (obs.getD n ⟨0, 0, 0⟩))).length ≠ 0 ∧
    bias_per_obs P obs (obs.getD n ⟨0, 0, 0⟩) =
      some (quantile05 ((groupObs P obs (binKey P (obs.getD n ⟨0, 0, 0⟩))).map Obs.vcd)) ∧
    (linear_system_B P obs).getD n none =
      some ((obs.getD n ⟨0, 0, 0⟩).vcd -
        quantile05 ((groupObs P obs (binKey P (obs.getD n ⟨0, 0, 0⟩))).map Obs.vcd)) := by
  have hmem : obs.getD n ⟨0, 0, 0⟩ ∈ obs := by
    rw [List.getD_eq_getElem obs ⟨0, 0, 0⟩ hn]
    exact List.getElem_mem hn
  have hgrp : obs.getD n ⟨0, 0, 0⟩ ∈ groupObs P obs (binKey P (obs.getD n ⟨0, 0, 0⟩)) := by
    unfold groupObs
    rw [List.mem_filter]
    exact ⟨hmem, by simp⟩
  have hbias : bias_per_obs P obs (obs.getD n ⟨0, 0, 0⟩) =
      some (quantile05 ((groupObs P obs (binKey P (obs.getD n ⟨0, 0, 0⟩))).map Obs.vcd)) := by
    unfold bias_per_obs bias_grid
    rw [find_map_self _ _ _ (by
      unfold binKeys
      exact List.mem_dedup.mpr (List.mem_map_of_mem _ hmem))]
    rfl
  refine ⟨?_, hbias, ?_⟩
  · intro hlen
    rw [List.length_eq_zero] at hlen
    rw [hlen] at hgrp
    cases hgrp
  · have hn2 : n < (linear_system_B P obs).length := by
      unfold linear_system_B
      simpa using hn
    rw [List.getD_eq_getElem _ none hn2]
    unfold linear_system_B
    rw [List.getElem_map, ← List.getD_eq_getElem obs ⟨0, 0, 0⟩ hn, hbias]
    rfl

/-- Claim C5 witness: two observations in the same bin with concentrations 4
and 2; the 5th-percentile bias is 2.1 and the first right-hand-side entry is
4 - 2.1 = 1.9. -/
theorem multisource_bias_and_rhs_witness :
    bias_per_obs ⟨0, 0, 1, 1⟩ [⟨1/2, 1/2, 4⟩, ⟨1/2, 1/2, 2⟩]
        (([⟨1/2, 1/2, 4⟩, ⟨1/2, 1/2, 2⟩] : List Obs).getD 0 ⟨0, 0, 0⟩) = some (21/10) ∧
    (linear_system_B ⟨0, 0, 1, 1⟩ [⟨1/2, 1/2, 4⟩, ⟨1/2, 1/2, 2⟩]).getD 0 none =
      some (19/10) := by
  have h := multisource_bias_and_rhs ⟨0, 0, 1, 1⟩ [⟨1/2, 1/2, 4⟩, ⟨1/2, 1/2, 2⟩] 0
    (by decide) 1 1
    (by
      intro o ho
      simp only [List.mem_cons, List.not_mem_nil, or_false] at ho
      rcases ho with h1 | h1 <;> rw [h1] <;> constructor <;> norm_num [obs_iy])
    (by
      intro o ho
      simp only [List.mem_cons, List.not_mem_nil, or_false] at ho
      rcases ho with h1 | h1 <;> rw [h1] <;> constructor <;> norm_num [obs_ix])
  have hq : quantile05 ((groupObs ⟨0, 0, 1, 1⟩ [⟨1/2, 1/2, 4⟩, ⟨1/2, 1/2, 2⟩]
      (binKey ⟨0, 0, 1, 1⟩ (([⟨1/2, 1/2, 4⟩, ⟨1/2, 1/2, 2⟩] : List Obs).getD 0
        ⟨0, 0, 0⟩))).map Obs.vcd) = 21/10 := by
    norm_num [groupObs, binKey, obs_iy, obs_ix, quantile05, sortAsc, insertSorted,
      List.getD, List.filter]
  refine ⟨h.2.1.trans ?_, h.2.2.trans ?_⟩
  · rw [hq]
  · rw [hq]
    norm_num

/-- `DateRange` (`base.py` lines 24-50).  Dates are modelled as integer day
numbers (ISO-string parsing elided); the Python attributes are `start` and
`end` (`end` is reserved in Lean). -/
structure DateRangeM where
  startDate : ℤ
  endDate : ℤ
deriving DecidableEq

/-- `DateRange.__setattr__` for key "start" on a fully initialised object
(`base.py` lines 46-50).  The attribute is written FIRST via
`super.__setattr__`, then the invariant check runs; the boolean reports
whether `ValueError` was raised.  Either way the returned state is the
object's state afterwards. -/
def DateRangeM.setStart (r : DateRangeM) (v : ℤ) : DateRangeM × Bool :=
  let r2 : DateRangeM := { r with startDate := v }
  (r2, decide (r2.endDate < r2.startDate))

/-- `DateRange.__setattr__` for key "end" on a fully initialised object. -/
def DateRangeM.setEnd (r : DateRangeM) (v : ℤ) : DateRangeM × Bool :=
  let r2 : DateRangeM := { r with endDate := v }
  (r2, decide (r2.endDate < r2.startDate))

/-- `DateRange.__init__` (`base.py` lines 27-29): sets `start` (no check
possible, `end` absent), then `end` (check runs).  If the check raises, the
half-built object is discarded, so construction yields no object. -/
def DateRangeM.init (s e : ℤ) : Except String DateRangeM :=
  if e < s then .error "Invalid date range, end cannot be before start!"
  else .ok ⟨s, e⟩

/-- `DateRange.__len__` (`base.py` lines 40-41): `(end - start).days + 1`. -/
def DateRangeM.lenD (r : DateRangeM) : ℤ := r.endDate - r.startDate + 1

/-- `DateRange.__iter__` (`base.py` lines 43-44):
`[start + timedelta(days=c) for c in range(len(self))]`. -/
def DateRangeM.iterDays (r : DateRangeM) : List ℤ :=
  (List.range r.lenD.toNat).map fun (c : ℕ) => r.startDate + (c : ℤ)

/-- Claim C10 counterexample: assigning `end := -1` on the valid range
`[0, 1]` raises ValueError, but only after the attribute was written, so
afterwards the object itself violates `start <= end` — a violating
`DateRange` does exist. -/
theorem daterange_mutation_counterexample :
    (DateRangeM.setEnd ⟨0, 1⟩ (-1)).2 = true ∧
    (DateRangeM.setEnd ⟨0, 1⟩ (-1)).1.endDate < (DateRangeM.setEnd ⟨0, 1⟩ (-1)).1.startDate := by
  exact ⟨by decide, by decide⟩

/-- Claim C10 (amended): construction with end before start raises and
creates no object, and a violating later assignment raises ValueError — but
the attribute is updated before the check, so the violated object persists.
Whenever the invariant holds, `len = end - start + 1 >= 1` and iteration
yields exactly `len` consecutive days from start to end inclusive. -/
theorem daterange_invariant_amended (s e v : ℤ) (r : DateRangeM) :
    (e < s → DateRangeM.init s e = .error "Invalid date range, end cannot be before start!") ∧
    (s ≤ e → DateRangeM.init s e = .ok ⟨s, e⟩) ∧
    ((r.setEnd v).1 = ⟨r.startDate, v⟩ ∧ ((r.setEnd v).2 = true ↔ v < r.startDate)) ∧
    ((r.setStart v).1 = ⟨v, r.endDate⟩ ∧ ((r.setStart v).2 = true ↔ r.endDate < v)) ∧
    (r.startDate ≤ r.endDate →
      1 ≤ r.lenD ∧
      (r.iterDays.length : ℤ) = r.lenD ∧
      (∀ i : ℕ, i < r.iterDays.length → r.iterDays.getD i 0 = r.startDate + i) ∧
      r.iterDays.getD 0 0 = r.startDate ∧
      r.iterDays.getD (r.iterDays.length - 1) 0 = r.endDate) := by
  refine ⟨?_, ?_, ⟨rfl, by simp [DateRangeM.setEnd]⟩, ⟨rfl, by simp [DateRangeM.setStart]⟩, ?_⟩
  · intro h
    unfold DateRangeM.init
    rw [if_pos h]
  · intro h
    unfold DateRangeM.init
    rw [if_neg (not_lt.mpr h)]
  · intro hinv
    have hlen : (1 : ℤ) ≤ r.lenD := by
      unfold DateRangeM.lenD
      omega
    have hlistlen : r.iterDays.length = r.lenD.toNat := by
      unfold DateRangeM.iterDays
      simp
    have htoNat : (r.lenD.toNat : ℤ) = r.lenD := Int.toNat_of_nonneg (by omega)
    have hget : ∀ i : ℕ, i < r.iterDays.length → r.iterDays.getD i 0 = r.startDate + i := by
      intro i hi
      have hi2 : i < r.lenD.toNat := by rwa [hlistlen] at hi
      unfold DateRangeM.iterDays
      rw [List.getD_eq_getElem _ 0 (by simpa using hi2)]
      simp
    refine ⟨hlen, by rw [hlistlen, htoNat], hget, ?_, ?_⟩
    · have h0 : 0 < r.iterDays.length := by
        rw [hlistlen]
        omega
      rw [hget 0 h0]
      simp
    · have hlast : r.iterDays.length - 1 < r.iterDays.length := by
        rw [hlistlen]
        omega
      rw [hget _ hlast, hlistlen]
      unfold DateRangeM.lenD
      omega

/-- Claim C10 witness: the amended statement at the range `[3, 5]` with
reassignment value 7. -/
theorem daterange_invariant_amended_witness :
    DateRangeM.init 3 5 = .ok ⟨3, 5⟩ ∧
    ((DateRangeM.setEnd ⟨3, 5⟩ 7).2 = true ↔ (7 : ℤ) < 3) ∧
    (1 ≤ DateRangeM.lenD ⟨3, 5⟩ ∧
      ((DateRangeM.iterDays ⟨3, 5⟩).length : ℤ) = DateRangeM.lenD ⟨3, 5⟩ ∧
      (DateRangeM.iterDays ⟨3, 5⟩).getD 0 0 = 3) := by
  have h := daterange_invariant_amended 3 5 7 ⟨3, 5⟩
  have h5 := h.2.2.2.2 (by decide)
  exact ⟨h.2.1 (by decide), h.2.2.1.2, h5.1, h5.2.1, h5.2.2.2.1⟩

end SpaceEmissions
